import Mathlib

/-!
Shallow embedding of the bigv Terraform provider (package `bigv`):
the authenticated HTTP client (`client.go`) and the VM resource logic
(`resource_vm.go`).  Go integers are modelled as `Int`, Go strings as
`String`, Go slices as `List`, fallible functions as `Except`/`Option`,
and the HTTP transport as an explicit oracle argument giving the outcome
of each attempted network call.
-/

/-- Equality on `Except` is decidable when it is on both components;
used to settle concrete runs by `decide`. -/
instance {ε α : Type} [DecidableEq ε] [DecidableEq α] : DecidableEq (Except ε α) := fun x y =>
  match x, y with
  | Except.ok a, Except.ok b =>
    if h : a = b then isTrue (by rw [h]) else isFalse (by intro hc; cases hc; exact h rfl)
  | Except.error a, Except.error b =>
    if h : a = b then isTrue (by rw [h]) else isFalse (by intro hc; cases hc; exact h rfl)
  | Except.ok _, Except.error _ => isFalse (by intro hc; cases hc)
  | Except.error _, Except.ok _ => isFalse (by intro hc; cases hc)

namespace Bigv

/-! Constants (resource_vm.go:22-28 and client.go:16-18)

The Go `const` block uses `iota`, which counts every entry of the block:
`waitForProvisioned = 1 + iota` sits at position 3 of the block (value 4)
and `waitForPowered = 1 + iota` at position 4 (value 5). -/

def passwordLength : Nat := 48

def waitForVM : Nat := 1200

def vmCheckInterval : Nat := 5

def waitForProvisioned : Nat := 4

def waitForPowered : Nat := 5

def bigvTimeout : Nat := 20

/-! Data model (resource_vm.go:30-81) -/

/-- Go struct `bigvVm` (resource_vm.go:30-42).  Field names follow the Go struct;
`power` and `reboot` carry the JSON keys `power_on` / `autoreboot_on`
and have no `omitempty`, so they are always serialized. -/
structure BigvVm where
  id : Int
  name : String
  cores : Int
  memory : Int
  hostname : String
  distribution : String
  power : Bool
  reboot : Bool
  group : String
  groupId : Int
  zone : String
deriving DecidableEq

/-- The Go zero value `bigvVm{}`: all numeric fields 0, strings empty,
booleans false. -/
def emptyBigvVm : BigvVm :=
  { id := 0, name := "", cores := 0, memory := 0, hostname := ""
    distribution := "", power := false, reboot := false, group := ""
    groupId := 0, zone := "" }

/-- A `bigvVm` that differs from the zero value only in `cores` and
`memory` — the shape handled by `computeCoresToMemory`. -/
def vmOf (cores memory : Int) : BigvVm :=
  { emptyBigvVm with cores := cores, memory := memory }

/-- Go struct `bigvDisc` (resource_vm.go:44-48). -/
structure BigvDisc where
  label : String
  storageGrade : String
  size : Int
deriving DecidableEq

/-- Go struct `bigvImage` (resource_vm.go:50-55). -/
structure BigvImage where
  distribution : String
  rootPassword : String
  sshPublicKey : String
  firstBootScript : String
deriving DecidableEq

/-- Go struct `bigvIps` (resource_vm.go:57-61). -/
structure BigvIps where
  ipv4 : String
  ipv6 : String
deriving DecidableEq

/-- Go struct `bigvNic` (resource_vm.go:63-68). -/
structure BigvNic where
  label : String
  ips : List String
  mac : String
deriving DecidableEq

/-- Go struct `bigvServer` (resource_vm.go:70-74): the embedded `bigvVm` plus
discs and network interfaces as returned by a read. -/
structure BigvServer where
  vm : BigvVm
  discs : List BigvDisc
  nics : List BigvNic
deriving DecidableEq

/-! Go arithmetic helpers -/

/-- Go's `/` on `int` truncates toward zero (unlike Lean's `Int./`,
which is Euclidean division). -/
def goIntDiv (a b : Int) : Int := Int.tdiv a b

/-- Embeds `int(math.Ceil(float64(q) + float64(0.01)))` for an integer
quotient `q` (resource_vm.go:639 and :645).  The quotient fed in is an
int64 memory divided by 4096, so `|q| ≤ 2^51` and `float64(q)` is
exact.  The float64 nearest 0.01 is ≈ 0.0100000000000000002.  When the
gap from `q` up to the next float64 is at most 2^-6 — that is, when
`-(2^47) ≤ q < 2^47` — half that gap is at most 2^-7 = 0.0078125 <
fl(0.01), so the IEEE-rounded sum lands strictly between `q` and
`q + 1` and the ceiling is `q + 1`.  Otherwise (`|q|` in
`[2^47, 2^51]`, upward gap at least 2^-5) half the gap is at least
0.015625 > fl(0.01): the nudge is absorbed, the sum rounds back to
exactly `q`, and the ceiling is `q`. -/
def ceilQuotientPlusNudge (q : Int) : Int :=
  if -(2 ^ 47) ≤ q ∧ q < 2 ^ 47 then q + 1 else q

/-- Embeds `int(math.Max(1024, float64(x)))` (resource_vm.go:642).
Every `x` fed in is a multiple of 4096 with `|x| ≤ 2^63`, i.e.
`k * 2^12` with `|k| ≤ 2^51 < 2^53`, hence exactly representable in
float64, so `math.Max` and the `int` conversion are exact. -/
def goMaxInt (a b : Int) : Int := max a b

/-- Go `int` (int64) arithmetic is two's-complement and wraps: this
reduces an unbounded product into `[-2^63, 2^63)`. -/
def wrapInt64 (x : Int) : Int := (x + 2 ^ 63) % 2 ^ 64 - 2 ^ 63

/-! Function computeCoresToMemory (resource_vm.go:630-652) -/

/-- The validation failure built at resource_vm.go:647: the message
interpolates the expected core count, the given memory divided by 1024
(GiB), and the given core count. -/
inductive CoresMemoryError where
  | mismatch (expectedCores : Int) (memoryGiB : Int) (givenCores : Int)
deriving DecidableEq

/-- Method `(*bigvVm).computeCoresToMemory` (resource_vm.go:630-652).  The Go
method mutates the receiver and returns an error; here it returns the
updated record or the error.  The memory-only branch computes
`(v.Cores-1)*4096` in Go int64 arithmetic, which wraps, so both the
subtraction and the multiplication pass through `wrapInt64` (for int64
`cores` the subtraction itself never wraps except at the minimum
int64, which `wrapInt64` also covers). -/
def computeCoresToMemory (v : BigvVm) : Except CoresMemoryError BigvVm :=
  if v.cores = 0 ∧ v.memory = 0 then
    -- both unset: defaults (resource_vm.go:633-636)
    Except.ok { v with cores := 1, memory := 1024 }
  else if v.cores = 0 then
    -- just the cores calculated (resource_vm.go:637-639)
    Except.ok { v with cores := ceilQuotientPlusNudge (goIntDiv v.memory 4096) }
  else if v.memory = 0 then
    -- just the memory calculated (resource_vm.go:640-642)
    Except.ok
      { v with memory := goMaxInt 1024 (wrapInt64 (wrapInt64 (v.cores - 1) * 4096)) }
  else
    -- both set: validate against `expectedCores` (resource_vm.go:643-649)
    if ceilQuotientPlusNudge (goIntDiv v.memory 4096) ≠ v.cores then
      Except.error
        (CoresMemoryError.mismatch (ceilQuotientPlusNudge (goIntDiv v.memory 4096))
          (goIntDiv v.memory 1024) v.cores)
    else
      Except.ok v

/-! The HTTP client (client.go) -/

/-- Go struct `client` (client.go:20-28), without the embedded `*http.Client`
(modelled by the transport oracles below). -/
structure Client where
  account : String
  group : String
  zone : String
  user : String
  password : String
  session : String
deriving DecidableEq

/-- An HTTP response as far as this code inspects one: status code and
fully-read body. -/
structure HttpResponse where
  status : Nat
  body : String
deriving DecidableEq

/-- Method `(*client).newSession` (client.go:37-68), with the outcome of the
single `c.http.Do(req)` call passed in as `transport`.  `json.Marshal`
of two string fields cannot fail, so the error branch at client.go:46-49
is unreachable and not modelled.  On transport failure (client.go:56-57)
the error is returned unchanged and the client is untouched.  Otherwise
(client.go:58-65) the response body is stored as the session token —
the response status is never inspected. -/
def newSession (c : Client) (transport : Except String HttpResponse) :
    Client × Option String :=
  match transport with
  | Except.error e => (c, some e)
  | Except.ok resp => ({ c with session := resp.body }, none)

/-- Outcome of one `c.http.Do(req)` attempt inside the retry loop of
`do`: either a transport-level error or a response. -/
inductive TransportResult where
  | failure (e : String)
  | response (resp : HttpResponse)
deriving DecidableEq

/-- The error value returned by `(*client).do`. -/
inductive DoError where
  /-- An error propagated unchanged from the transport or from session
  acquisition (client.go:85, :110). -/
  | fromTransport (e : String)
  /-- `fmt.Errorf("Bigv returned HTTP Status %d: %s", ...)` built from
  the status code and the fully-read response body (client.go:124-126). -/
  | remoteFault (status : Nat) (body : String)
  /-- `errors.New("Unexpected error in HTTP client, ...")`
  (client.go:129). -/
  | unexpected
deriving DecidableEq

/-- What `(*client).do` hands back, plus instrumentation the claims are
about: the possibly-updated client, the Go return pair
`(*http.Response, error)`, how many attempts (iterations of the
client.go:101 loop) were made, and how many times `newSession` was
called from inside that loop. -/
structure DoResult where
  client : Client
  resp : Option HttpResponse
  err : Option DoError
  attempts : Nat
  loopReauths : Nat
deriving DecidableEq

/-- The exit taken by one execution of the loop body at client.go:101-127:
either a `return` with the Go pair, or a `continue`. -/
inductive LoopExit where
  | ret (resp : Option HttpResponse) (err : Option DoError)
  | cont
deriving DecidableEq

/-- One execution of the retry-loop body (client.go:101-127) on attempt
`i`, with `att i` the outcome of `c.http.Do(req)` on that attempt.

Every reachable path of the body `return`s:
* a transport error or a status in `[200, 500)` returns at
  client.go:109-111 — this includes 401, which lies in `[200, 500)`;
* the `resp.StatusCode == 401 && i == 0` branch (client.go:115-121) is
  therefore unreachable, and even taken on its own terms it executes
  `return resp, err` (line 116) first, so the reauthentication and
  `continue` at lines 117-120 are dead code;
* every other status returns the `remoteFault` error (client.go:123-126).

Hence no path produces `LoopExit.cont` and `newSession` is never called
from the loop. -/
def doLoopBody (att : Nat → TransportResult) (i : Nat) : LoopExit :=
  match att i with
  | TransportResult.failure e => LoopExit.ret none (some (DoError.fromTransport e))
  | TransportResult.response resp =>
    if 200 ≤ resp.status ∧ resp.status < 500 then
      LoopExit.ret (some resp) none
    else if resp.status = 401 ∧ i = 0 then
      LoopExit.ret (some resp) none
    else
      LoopExit.ret (some resp) (some (DoError.remoteFault resp.status resp.body))

/-- The `for i := 0; i < 3; i++` loop of client.go:101-127 followed by
the fall-through return at client.go:129.  `remaining` counts the
iterations still permitted by the `i < 3` guard (`remaining = 3 - i`),
so exhausting it is exactly falling out of the loop into the
client.go:129 return. -/
def doLoop (c : Client) (att : Nat → TransportResult) : Nat → Nat → DoResult
  | 0, i =>
    { client := c, resp := none, err := some DoError.unexpected
      attempts := i, loopReauths := 0 }
  | remaining + 1, i =>
    match doLoopBody att i with
    | LoopExit.ret r e =>
      { client := c, resp := r, err := e, attempts := i + 1, loopReauths := 0 }
    | LoopExit.cont => doLoop c att remaining (i + 1)

/-- Method `(*client).do` (client.go:70-130).  `auth` is the transport outcome
of the session-acquisition request, consulted only when the client has
no session yet (client.go:80-89: on acquisition failure the error is
returned and no attempt is made); `att i` is the outcome of the
`c.http.Do(req)` call on loop attempt `i`. -/
def clientDo (c : Client) (auth : Except String HttpResponse)
    (att : Nat → TransportResult) : DoResult :=
  if c.session = "" then
    match newSession c auth with
    | (c2, some e) =>
      { client := c2, resp := none, err := some (DoError.fromTransport e)
        attempts := 0, loopReauths := 0 }
    | (c2, none) => doLoop c2 att 3 0
  else
    doLoop c att 3 0

/-! Update (resource_vm.go:410-490) -/

/-- What `resourceBigvVMUpdate` reads from the Terraform resource data
`d`: the change flags `d.HasChange(...)` and the current attribute
values `d.Get(...)`. -/
structure UpdateData where
  hasChangePowerOn : Bool
  hasChangeReboot : Bool
  hasChangeCores : Bool
  hasChangeMemory : Bool
  power_on : Bool
  reboot : Bool
  cores : Int
  memory : Int
deriving DecidableEq

/-- The `vm` value built by `resourceBigvVMUpdate` at
resource_vm.go:413-437, before validation.  It starts from the Go zero
value `bigvVm{}`.  Note that BOTH guards at resource_vm.go:415 and :419
test `d.HasChange("power_on")` — the second one assigns `vm.Reboot`
from `d.Get("reboot")` but is still guarded by the power_on flag. -/
def buildUpdateVm (d : UpdateData) : BigvVm :=
  let vm := emptyBigvVm
  let vm := if d.hasChangePowerOn then { vm with power := d.power_on } else vm
  let vm := if d.hasChangePowerOn then { vm with reboot := d.reboot } else vm
  if d.hasChangeCores || d.hasChangeMemory then
    let vm := { vm with cores := d.cores, memory := d.memory }
    -- resize forces a power-cycle unless power_on changed too
    -- (resource_vm.go:428-436)
    if !d.hasChangePowerOn then { vm with power := false, reboot := true } else vm
  else
    vm

/-- The payload `resourceBigvVMUpdate` submits (marshalled at
resource_vm.go:443 after the `computeCoresToMemory` call at :439-441);
on a validation error nothing is submitted. -/
def resourceBigvVMUpdatePayload (d : UpdateData) : Except CoresMemoryError BigvVm :=
  computeCoresToMemory (buildUpdateVm d)

/-! Create (resource_vm.go:180-315) -/

/-- Go struct `bigvVMCreate` (resource_vm.go:76-81). -/
structure BigvVMCreate where
  virtualMachine : BigvVm
  discs : List BigvDisc
  image : BigvImage
  ips : Option BigvIps
deriving DecidableEq

/-- What `resourceBigvVMCreate` reads from the resource data, plus the
generated root password (`randomPassword()` at resource_vm.go:200,
modelled as an input). -/
structure CreateData where
  name : String
  cores : Int
  memory : Int
  power_on : Bool
  reboot : Bool
  group : String
  zone : String
  disc_size : Int
  os : String
  ssh_public_key : String
  firstboot_script : String
  ipv4 : String
  ipv6 : String
  generatedRootPassword : String
deriving DecidableEq

/-- The explicit-IP block set up at resource_vm.go:206-219: `vm.Ips`
starts `nil`; a non-empty ipv4 allocates it with that ipv4; a non-empty
ipv6 allocates it if still `nil` and then sets its ipv6 — so it is
non-`nil` exactly when ipv4 or ipv6 is supplied. -/
def createIps (d : CreateData) : Option BigvIps :=
  if d.ipv4 ≠ "" then
    if d.ipv6 ≠ "" then some { ipv4 := d.ipv4, ipv6 := d.ipv6 }
    else some { ipv4 := d.ipv4, ipv6 := "" }
  else
    if d.ipv6 ≠ "" then some { ipv4 := "", ipv6 := d.ipv6 }
    else none

/-- The `vm` value built at resource_vm.go:183-219: machine descriptor,
single root disc, image spec, and the optional explicit-IP block. -/
def buildCreateVm (d : CreateData) : BigvVMCreate :=
  { virtualMachine :=
      { emptyBigvVm with
          name := d.name, cores := d.cores, memory := d.memory
          power := d.power_on, reboot := d.reboot
          group := d.group, zone := d.zone }
    discs := [{ label := "root", storageGrade := "sata", size := d.disc_size }]
    image :=
      { distribution := d.os, rootPassword := d.generatedRootPassword
        sshPublicKey := d.ssh_public_key, firstBootScript := d.firstboot_script }
    ips := createIps d }

/-- A create error returned before any network request exists
(resource_vm.go:234-240). -/
inductive CreateError where
  /-- the `computeCoresToMemory` failure at resource_vm.go:234-236 -/
  | capacity (e : CoresMemoryError)
  /-- the rejection at resource_vm.go:238-240 of an ssh public key
  together with an os of none -/
  | sshKeyWithNoOs
deriving DecidableEq

/-- The outbound create request built at resource_vm.go:248-257:
URL components and payload. -/
structure CreateRequest where
  group : String
  payload : BigvVMCreate
deriving DecidableEq

/-- The validation-and-request-construction prefix of
`resourceBigvVMCreate` (resource_vm.go:183-257): build the payload,
normalize cores/memory (resource_vm.go:234-236), reject an ssh key with
an os of none (resource_vm.go:238-240), and only then construct the
network request.  `Except.error` means the function returned before any
request value existed. -/
def resourceBigvVMCreatePrepare (d : CreateData) : Except CreateError CreateRequest :=
  let vm := buildCreateVm d
  match computeCoresToMemory vm.virtualMachine with
  | Except.error e => Except.error (CreateError.capacity e)
  | Except.ok v =>
    if vm.image.sshPublicKey ≠ "" ∧ vm.image.distribution = "none" then
      Except.error CreateError.sshKeyWithNoOs
    else
      Except.ok { group := v.group, payload := { vm with virtualMachine := v } }

/-! Function resourceFromJson (resource_vm.go:582-624) -/

/-- The Terraform-side attribute state that `resourceFromJson` writes
via `d.SetId` / `d.Set` / `d.SetConnInfo`.  Every attribute has a prior
value (Terraform supplies defaults), so fields are plain values that
the function overwrites. -/
structure ResourceState where
  id : Int
  name : String
  cores : Int
  memory : Int
  power_on : Bool
  reboot : Bool
  group_id : Int
  zone : String
  disk_size : Int
  os : String
  ipv4 : String
  ipv6 : String
  root_password : String
  connInfoHost : String
deriving DecidableEq

/-- Function `resourceFromJson` (resource_vm.go:582-624) applied to the machine
descriptor already parsed from the response body (the
`json.Unmarshal` failure branch at :587-589 is outside this function's
argument).  Returns `none` where the Go code panics: when the nic list
is non-empty it reads `vm.Nics[0].Ips[0]` and `vm.Nics[0].Ips[1]`
unconditionally (resource_vm.go:611-621), which is an out-of-range
index — a runtime panic — unless the first interface carries at least
two IPs. -/
def resourceFromJson (d : ResourceState) (vm : BigvServer) : Option ResourceState :=
  let d := { d with
    id := vm.vm.id, name := vm.vm.name, cores := vm.vm.cores
    memory := vm.vm.memory, power_on := vm.vm.power, reboot := vm.vm.reboot
    group_id := vm.vm.groupId, zone := vm.vm.zone }
  -- if we don't get discs back this was probably an update request
  -- (resource_vm.go:600-603 sets "disk_size" only when exactly one disc)
  let d := match vm.discs with
    | [disc] => { d with disk_size := disc.size }
    | _ => d
  -- distribution is empty in the create response (resource_vm.go:605-608)
  let d := if vm.vm.distribution ≠ "" then { d with os := vm.vm.distribution } else d
  match vm.nics with
  | [] => some d
  | nic :: _ =>
    match nic.ips.get? 0, nic.ips.get? 1 with
    | some ip4, some ip6 =>
      some { d with ipv4 := ip4, ipv6 := ip6, connInfoHost := ip4 }
    | _, _ => none

/-! Function waitForBigvState (resource_vm.go:320-372) -/

/-- The outcome of one polling iteration's read, as consumed by the
loop: a transport/client error from `bigvClient.do`
(resource_vm.go:335-338), or a response with its status and the result
of `resourceFromJson` on its body (:343-349; `Except.error` is the
json-unmarshal failure path of resource_vm.go:587-589). -/
inductive PollStep where
  | transportError (e : DoError)
  | response (status : Nat) (parsed : Except String ResourceState)

/-- The ways `waitForBigvState` returns. -/
inductive WaitResult where
  /-- Normal `nil` return with the state as refreshed by the last read
  (resource_vm.go:354, :361) -/
  | ok (d : ResourceState)
  /-- the timeout branch (resource_vm.go:332-333) -/
  | timeout (seconds : Nat)
  /-- an error from `bigvClient.do` (resource_vm.go:336-338) -/
  | healthCheckError (e : DoError)
  /-- a `resourceFromJson` error (resource_vm.go:347-349) -/
  | parseError (e : String)
  /-- a status that is neither 200 nor 202 (resource_vm.go:365-367) -/
  | badStatus (status : Nat)

/-- The `for { select { ... } }` loop of `waitForBigvState`
(resource_vm.go:330-369), with wall-clock time made explicit.

Each iteration evaluates the `select` anew, which calls BOTH
`time.After(waitForVM * time.Second)` and
`time.Tick(vmCheckInterval * time.Second)` afresh: the timeout channel
created at entry time `now` fires at `now + waitForVM`, the new ticker
first fires at `now + vmCheckInterval`, and the `select` takes whichever
channel fires first.  `fuel` merely bounds the observation window (the
function returns `none` when `fuel` runs out with the loop still
running); `i` indexes the polls, `now` is the absolute time at the
iteration's entry. -/
def waitForBigvStateRun (steps : Nat → PollStep) (waitFor : Nat) :
    Nat → Nat → Nat → Option WaitResult
  | 0, _, _ => none
  | fuel + 1, i, now =>
    if now + waitForVM ≤ now + vmCheckInterval then
      some (WaitResult.timeout waitForVM)
    else
      match steps i with
      | PollStep.transportError e => some (WaitResult.healthCheckError e)
      | PollStep.response status parsed =>
        -- no matter what, everything comes from the read state
        -- (resource_vm.go:346-349)
        match parsed with
        | Except.error e => some (WaitResult.parseError e)
        | Except.ok d =>
          if status = 200 then
            if waitFor = waitForProvisioned then some (WaitResult.ok d)
            else if waitFor = waitForPowered ∧ d.power_on then some (WaitResult.ok d)
            else
              -- status 200 never trips the bad-status return at
              -- resource_vm.go:365-367; keep polling
              waitForBigvStateRun steps waitFor fuel (i + 1) (now + vmCheckInterval)
          else if status ≠ 202 then some (WaitResult.badStatus status)
          else waitForBigvStateRun steps waitFor fuel (i + 1) (now + vmCheckInterval)

/-! Concrete inputs used to evaluate the model on closed runs -/

/-- A client that already holds a session token, so `clientDo` performs
no initial session acquisition. -/
def sessionClient : Client :=
  { account := "acc", group := "default", zone := "york", user := "u"
    password := "p", session := "tok" }

/-- The same client before any session exists (the state at provider
configuration, provider.go:37-45). -/
def emptySessionClient : Client :=
  { sessionClient with session := "" }

/-- An authentication oracle for runs that never consult it. -/
def authUnused : Except String HttpResponse := Except.error "unused"

/-- A transport in which every attempt answers HTTP 401. -/
def att401 : Nat → TransportResult :=
  fun _ => TransportResult.response { status := 401, body := "Unauthorized" }

/-- A transport in which every attempt answers HTTP 500. -/
def att500 : Nat → TransportResult :=
  fun _ => TransportResult.response { status := 500, body := "boom" }

/-- An update in which only cores changed (to 1 core, 1024 MiB) and the
power_on flag did not. -/
def resizeOnlyUpdate : UpdateData :=
  { hasChangePowerOn := false, hasChangeReboot := false, hasChangeCores := true
    hasChangeMemory := false, power_on := true, reboot := true
    cores := 1, memory := 1024 }

/-- The payload the resize-only update produces. -/
def resizeOnlyVm : BigvVm :=
  { emptyBigvVm with cores := 1, memory := 1024, power := false, reboot := true }

/-- An update in which only the reboot attribute changed (its current
value is true) while power_on, cores and memory are untouched. -/
def rebootOnlyUpdate : UpdateData :=
  { hasChangePowerOn := false, hasChangeReboot := true, hasChangeCores := false
    hasChangeMemory := false, power_on := true, reboot := true
    cores := 2, memory := 4096 }

/-- A create whose config supplies an ssh public key together with an
os of none. -/
def sshNoneCreate : CreateData :=
  { name := "web", cores := 1, memory := 1024, power_on := true, reboot := true
    group := "default", zone := "york", disc_size := 25600, os := "none"
    ssh_public_key := "ssh-rsa AAAA", firstboot_script := ""
    ipv4 := "", ipv6 := "", generatedRootPassword := "pw" }

/-- A blank prior resource state for `resourceFromJson` runs. -/
def readState : ResourceState :=
  { id := 0, name := "", cores := 0, memory := 0, power_on := false
    reboot := false, group_id := 0, zone := "", disk_size := 0, os := ""
    ipv4 := "", ipv6 := "", root_password := "", connInfoHost := "" }

/-- A network interface carrying the primary IPv4/IPv6 pair. -/
def twoIpNic : BigvNic :=
  { label := "vlan-1", ips := ["198.51.100.7", "2001:db8::7"], mac := "aa:bb" }

/-- A read response whose first interface carries two IPs. -/
def twoIpServer : BigvServer :=
  { vm := emptyBigvVm, discs := [], nics := [twoIpNic] }

/-- A poll sequence in which every read answers HTTP 202 with a body
that parses to `d`. -/
def allAccepted (d : ResourceState) : Nat → PollStep :=
  fun _ => PollStep.response 202 (Except.ok d)

/-! Theorems settling the claims -/

/-- Claim C1 (code defect evaluated at the failing input): a transport
call whose first attempt receives HTTP 401 does NOT trigger a session
reacquisition and a retry — `do` returns the 401 response from its
first attempt, because 401 lies in the `[200, 500)` early-return range
of client.go:109 and even the explicit 401 branch at client.go:115
executes `return resp, err` (line 116) before its reauthentication and
`continue` code (lines 117-120), which is unreachable. -/
theorem do_first_attempt_401_not_retried :
    clientDo sessionClient authUnused att401 =
      { client := sessionClient, resp := some { status := 401, body := "Unauthorized" }
        err := none, attempts := 1, loopReauths := 0 } := by decide

/-- Claim C8: a transport call whose attempt receives a response with
status 500 or above is not retried — the loop ends on that first
attempt (`attempts = 1`) with an error that carries the status code and
the fully-read response body, and no reauthentication happens. -/
theorem do_5xx_not_retried (c : Client) (att : Nat → TransportResult)
    (resp : HttpResponse) (auth : Except String HttpResponse)
    (hsession : c.session ≠ "") (hatt : att 0 = TransportResult.response resp)
    (hs : 500 ≤ resp.status) :
    clientDo c auth att =
      { client := c, resp := some resp
        err := some (DoError.remoteFault resp.status resp.body)
        attempts := 1, loopReauths := 0 } := by
  unfold clientDo
  rw [if_neg hsession]
  unfold doLoop doLoopBody
  rw [hatt]
  dsimp only
  rw [if_neg (by omega), if_neg (by omega)]

/-- Claim C8 witness: the theorem applied to the concrete all-500
transport. -/
theorem do_5xx_not_retried_witness :
    clientDo sessionClient authUnused att500 =
      { client := sessionClient, resp := some { status := 500, body := "boom" }
        err := some (DoError.remoteFault 500 "boom"), attempts := 1, loopReauths := 0 } :=
  do_5xx_not_retried sessionClient att500 { status := 500, body := "boom" }
    authUnused (by decide) rfl (by decide)

/-- Claim C5 counterexample: an authentication response that rejects the
credentials (HTTP 401, body Denied) is NOT surfaced as an error —
`newSession` stores that body as the session token and reports
success. -/
theorem newSession_stores_rejection_body :
    newSession emptySessionClient (Except.ok { status := 401, body := "Denied" }) =
      ({ emptySessionClient with session := "Denied" }, none) := by decide

/-- Claim C5 as amended: on transport failure `newSession` propagates
the error unchanged and leaves the session untouched; on ANY response
from the authentication endpoint — its status is never inspected — the
response body is stored as the session token and no error is
returned. -/
theorem newSession_spec (c : Client) (e : String) (r : HttpResponse) :
    newSession c (Except.error e) = (c, some e) ∧
    newSession c (Except.ok r) = ({ c with session := r.body }, none) :=
  ⟨rfl, rfl⟩

/-- Claim C5 witness: the amended theorem applied to a concrete
transport failure and a concrete successful response. -/
theorem newSession_spec_witness :
    newSession emptySessionClient (Except.error "down") = (emptySessionClient, some "down") :=
  (newSession_spec emptySessionClient "down" { status := 200, body := "tok" }).1

/-- Claim C2 counterexample: calling the validator with cores = 2 and
memory = 8192 (= 8192/4096 cores, as the claim prescribes) does not
succeed — it fails naming an expected core count of 3, because
resource_vm.go:645 computes `ceil(float64(8192/4096) + 0.01) = 3`. -/
theorem computeCoresToMemory_2_8192_rejected :
    computeCoresToMemory (vmOf 2 8192) =
      Except.error (CoresMemoryError.mismatch 3 8 2) := by decide

/-- Claim C2 as amended: for every memory that is a positive multiple
of 4096 below 2^59 (above that the float64 0.01 nudge is absorbed and
the validator expects memory/4096 instead), calling the validator with
cores = memory/4096 + 1 and that memory succeeds; in particular
(3, 8192) succeeds and (1, 8192) fails with a validation error naming
an expected core count of 3. -/
theorem computeCoresToMemory_multiples_of_4096 (m : Int)
    (hpos : 0 < m) (hdvd : (4096 : Int) ∣ m) (hbound : m < 2 ^ 59) :
    computeCoresToMemory (vmOf (goIntDiv m 4096 + 1) m) =
      Except.ok (vmOf (goIntDiv m 4096 + 1) m)
  ∧ computeCoresToMemory (vmOf 3 8192) = Except.ok (vmOf 3 8192)
  ∧ computeCoresToMemory (vmOf 1 8192) =
      Except.error (CoresMemoryError.mismatch 3 8 1) := by
  refine ⟨?_, by decide, by decide⟩
  have hq : goIntDiv m 4096 = m / 4096 := Int.tdiv_eq_ediv hpos.le (by norm_num)
  have hge : 0 ≤ goIntDiv m 4096 := by rw [hq]; omega
  have hb : -(2 ^ 47) ≤ goIntDiv m 4096 ∧ goIntDiv m 4096 < 2 ^ 47 := by
    rw [hq]
    omega
  have hnudge : ceilQuotientPlusNudge (goIntDiv m 4096) = goIntDiv m 4096 + 1 := by
    unfold ceilQuotientPlusNudge
    rw [if_pos hb]
  unfold computeCoresToMemory vmOf emptyBigvVm
  dsimp only
  rw [if_neg (by omega), if_neg (by omega), if_neg (by omega),
    if_neg (by rw [hnudge]; omega)]

/-- Claim C2 witness: the amended theorem applied at memory = 8192. -/
theorem computeCoresToMemory_multiples_of_4096_witness :
    (0 : Int) < 8192 ∧ ((4096 : Int) ∣ 8192) ∧ (8192 : Int) < 2 ^ 59 ∧
    computeCoresToMemory (vmOf (goIntDiv 8192 4096 + 1) 8192) =
      Except.ok (vmOf (goIntDiv 8192 4096 + 1) 8192) :=
  ⟨by norm_num, by norm_num, by norm_num,
    (computeCoresToMemory_multiples_of_4096 8192 (by norm_num) (by norm_num)
      (by norm_num)).1⟩

/-- Claim C4 counterexample: with only memory = 8192 set, the validator
derives cores = 3, not the claimed ceil(8192/4096) = 2. -/
theorem computeCoresToMemory_memory_only_8192 :
    computeCoresToMemory (vmOf 0 8192) = Except.ok (vmOf 3 8192)
  ∧ computeCoresToMemory (vmOf 0 8192) ≠ Except.ok (vmOf 2 8192) := by decide

/-- Helper: reducing into the int64 range is the identity on values
already inside it. -/
theorem wrapInt64_eq_self (x : Int) (hlo : -(2 ^ 63) ≤ x) (hhi : x < 2 ^ 63) :
    wrapInt64 x = x := by
  unfold wrapInt64
  rw [Int.emod_eq_of_lt (by omega) (by omega)]
  omega

/-- Claim C4 as amended: the validator derives unset values exactly as:
with both cores and memory zero it yields (1, 1024); with only memory
set, and memory below 2^59 (above that the float64 0.01 nudge is
absorbed and it derives memory/4096), it yields
cores = memory/4096 + 1 (truncating division), so every memory in
(0, 4096) yields cores = 1 (never 0) and memory = 8192 yields
cores = 3; with only cores set, cores nonzero of magnitude below 2^51
(beyond that the int64 product wraps), it yields
memory = max(1024, (cores-1)*4096), so cores = 3 yields memory 8192. -/
theorem computeCoresToMemory_derivation :
    computeCoresToMemory (vmOf 0 0) = Except.ok (vmOf 1 1024)
  ∧ (∀ m : Int, 0 < m → m < 2 ^ 59 →
      computeCoresToMemory (vmOf 0 m) = Except.ok (vmOf (goIntDiv m 4096 + 1) m))
  ∧ (∀ m : Int, 0 < m → m < 4096 →
      computeCoresToMemory (vmOf 0 m) = Except.ok (vmOf 1 m))
  ∧ computeCoresToMemory (vmOf 0 8192) = Except.ok (vmOf 3 8192)
  ∧ (∀ c : Int, c ≠ 0 → -(2 ^ 51) < c → c < 2 ^ 51 →
      computeCoresToMemory (vmOf c 0) =
        Except.ok { vmOf c 0 with memory := goMaxInt 1024 ((c - 1) * 4096) })
  ∧ computeCoresToMemory (vmOf 3 0) = Except.ok { vmOf 3 0 with memory := 8192 } := by
  have hmem : ∀ m : Int, 0 < m → m < 2 ^ 59 →
      computeCoresToMemory (vmOf 0 m) = Except.ok (vmOf (goIntDiv m 4096 + 1) m) := by
    intro m hpos hbound
    have hq : goIntDiv m 4096 = m / 4096 := Int.tdiv_eq_ediv hpos.le (by norm_num)
    have hb : -(2 ^ 47) ≤ goIntDiv m 4096 ∧ goIntDiv m 4096 < 2 ^ 47 := by
      rw [hq]
      omega
    have hnudge : ceilQuotientPlusNudge (goIntDiv m 4096) = goIntDiv m 4096 + 1 := by
      unfold ceilQuotientPlusNudge
      rw [if_pos hb]
    unfold computeCoresToMemory vmOf emptyBigvVm
    dsimp only
    rw [if_neg (by omega), if_pos rfl, hnudge]
  have hsmall : ∀ m : Int, 0 < m → m < 4096 →
      computeCoresToMemory (vmOf 0 m) = Except.ok (vmOf 1 m) := by
    intro m hpos hlt
    have hz : goIntDiv m 4096 = 0 := by
      unfold goIntDiv
      rw [Int.tdiv_eq_ediv hpos.le (by norm_num)]
      omega
    have := hmem m hpos (by omega)
    rw [hz] at this
    simpa using this
  have hcores : ∀ c : Int, c ≠ 0 → -(2 ^ 51) < c → c < 2 ^ 51 →
      computeCoresToMemory (vmOf c 0) =
        Except.ok { vmOf c 0 with memory := goMaxInt 1024 ((c - 1) * 4096) } := by
    intro c hc hlo hhi
    have hw1 : wrapInt64 (c - 1) = c - 1 :=
      wrapInt64_eq_self (c - 1) (by omega) (by omega)
    have hw2 : wrapInt64 ((c - 1) * 4096) = (c - 1) * 4096 :=
      wrapInt64_eq_self ((c - 1) * 4096) (by omega) (by omega)
    unfold computeCoresToMemory vmOf emptyBigvVm
    dsimp only
    rw [if_neg (by omega), if_neg (by omega), if_pos rfl, hw1, hw2]
  exact ⟨by decide, hmem, hsmall, by decide, hcores, by decide⟩

/-- Claim C4 witness: the memory-only derivation applied at
memory = 1024. -/
theorem computeCoresToMemory_derivation_witness :
    (0 : Int) < 1024 ∧ (1024 : Int) < 4096 ∧
    computeCoresToMemory (vmOf 0 1024) = Except.ok (vmOf 1 1024) :=
  ⟨by norm_num, by norm_num,
    computeCoresToMemory_derivation.2.2.1 1024 (by norm_num) (by norm_num)⟩

/-- Helper: `computeCoresToMemory` rewrites only cores and memory, never
the power or reboot flags. -/
theorem computeCoresToMemory_preserves_power_reboot (v w : BigvVm)
    (h : computeCoresToMemory v = Except.ok w) :
    w.power = v.power ∧ w.reboot = v.reboot := by
  unfold computeCoresToMemory at h
  split at h
  · cases h; exact ⟨rfl, rfl⟩
  · split at h
    · cases h; exact ⟨rfl, rfl⟩
    · split at h
      · cases h; exact ⟨rfl, rfl⟩
      · split at h
        · cases h
        · cases h; exact ⟨rfl, rfl⟩

/-- Claim C6: in an update where cores or memory changed, if power_on
did not change the submitted payload carries power = false and
reboot = true (the forced power-cycle); if power_on did change, the
payload carries the caller's explicit power and reboot values
instead. -/
theorem update_resize_forces_power_cycle (d : UpdateData) (vm : BigvVm)
    (hresize : (d.hasChangeCores || d.hasChangeMemory) = true)
    (hok : resourceBigvVMUpdatePayload d = Except.ok vm) :
    (d.hasChangePowerOn = false → vm.power = false ∧ vm.reboot = true)
  ∧ (d.hasChangePowerOn = true → vm.power = d.power_on ∧ vm.reboot = d.reboot) := by
  unfold resourceBigvVMUpdatePayload at hok
  have hpr := computeCoresToMemory_preserves_power_reboot _ _ hok
  constructor
  · intro hp
    have : (buildUpdateVm d).power = false ∧ (buildUpdateVm d).reboot = true := by
      unfold buildUpdateVm
      simp [hresize, hp]
    exact ⟨hpr.1.trans this.1, hpr.2.trans this.2⟩
  · intro hp
    have : (buildUpdateVm d).power = d.power_on ∧ (buildUpdateVm d).reboot = d.reboot := by
      unfold buildUpdateVm
      simp [hresize, hp]
    exact ⟨hpr.1.trans this.1, hpr.2.trans this.2⟩

/-- Claim C6 witness: the theorem applied to the concrete resize-only
update. -/
theorem update_resize_forces_power_cycle_witness :
    resourceBigvVMUpdatePayload resizeOnlyUpdate = Except.ok resizeOnlyVm
  ∧ (resizeOnlyVm.power = false ∧ resizeOnlyVm.reboot = true) :=
  ⟨by decide,
    (update_resize_forces_power_cycle resizeOnlyUpdate resizeOnlyVm (by decide)
      (by decide)).1 rfl⟩

/-- Claim C7 (code defect evaluated at the failing input): an update in
which only the reboot attribute changed (current value true) does NOT
transmit the new reboot value — both guards at resource_vm.go:415 and
:419 test HasChange of power_on, so the payload keeps the zero values
power = false and reboot = false (and the validator then fills in the
default cores = 1, memory = 1024). -/
theorem update_reboot_only_change_drops_reboot :
    rebootOnlyUpdate.hasChangeReboot = true
  ∧ rebootOnlyUpdate.reboot = true
  ∧ resourceBigvVMUpdatePayload rebootOnlyUpdate =
      Except.ok { emptyBigvVm with cores := 1, memory := 1024 } := by decide

/-- Claim C9: a create whose config carries a non-empty ssh_public_key
and os = none returns a validation error before any network request
value is constructed (an `Except.error` from the preparation prefix,
which builds the request only in its ok branch); when the capacity
check passes, the error is precisely the ssh-with-no-os rejection. -/
theorem create_ssh_key_with_no_os_rejected (d : CreateData)
    (hkey : d.ssh_public_key ≠ "") (hos : d.os = "none") :
    (resourceBigvVMCreatePrepare d).isOk = false
  ∧ (∀ v, computeCoresToMemory (buildCreateVm d).virtualMachine = Except.ok v →
      resourceBigvVMCreatePrepare d = Except.error CreateError.sshKeyWithNoOs) := by
  have hcond : (buildCreateVm d).image.sshPublicKey ≠ "" ∧
      (buildCreateVm d).image.distribution = "none" := ⟨hkey, hos⟩
  constructor
  · unfold resourceBigvVMCreatePrepare
    dsimp only
    cases h : computeCoresToMemory (buildCreateVm d).virtualMachine with
    | error e => rfl
    | ok v => dsimp only; rw [if_pos hcond]; rfl
  · intro v hv
    unfold resourceBigvVMCreatePrepare
    dsimp only
    rw [hv]
    dsimp only
    rw [if_pos hcond]

/-- Claim C9 witness: the theorem applied to the concrete create
config. -/
theorem create_ssh_key_with_no_os_rejected_witness :
    (resourceBigvVMCreatePrepare sshNoneCreate).isOk = false :=
  (create_ssh_key_with_no_os_rejected sshNoneCreate (by decide) rfl).1

/-- Claim C10: when the parsed machine descriptor has a non-empty nic
list, `resourceFromJson` reads the first interface's IP list at indices
0 and 1 unconditionally; the run avoids the out-of-range access exactly
when that interface carries at least two IPs, and a first interface
with fewer than two IPs makes the indexing fail. -/
theorem resourceFromJson_first_nic_ip_indexing (d : ResourceState) (s : BigvServer)
    (nic : BigvNic) (rest : List BigvNic) (hnics : s.nics = nic :: rest) :
    (resourceFromJson d s).isSome = true ↔ 2 ≤ nic.ips.length := by
  unfold resourceFromJson
  rw [hnics]
  rcases hips : nic.ips with _ | ⟨a, _ | ⟨b, t⟩⟩ <;> simp [hips]

/-- Claim C10 witness: the theorem applied to a concrete server whose
first interface carries exactly two IPs. -/
theorem resourceFromJson_first_nic_ip_indexing_witness :
    (resourceFromJson readState twoIpServer).isSome = true :=
  (resourceFromJson_first_nic_ip_indexing readState twoIpServer twoIpNic [] rfl).mpr
    (by decide)

/-- Claim C3 (code defect evaluated at the failing input): on a poll
sequence in which every read answers HTTP 202, `waitForBigvState` never
returns — not after the 1200-second deadline, not ever.  Each iteration
of the `for { select ... } }` loop calls `time.After(waitForVM * time.Second)`
afresh (resource_vm.go:332), so the timeout channel is recreated before
it can ever fire, while the 5-second tick always fires first; the loop
therefore polls forever, at absolute times growing without bound. -/
theorem waitForBigvState_never_times_out (d0 : ResourceState) :
    ∀ fuel i now : Nat,
      waitForBigvStateRun (allAccepted d0) waitForProvisioned fuel i now = none := by
  intro fuel
  induction fuel with
  | zero => intro i now; rfl
  | succ n ih =>
    intro i now
    unfold waitForBigvStateRun allAccepted
    rw [if_neg (by unfold waitForVM vmCheckInterval; omega)]
    dsimp only
    rw [if_neg (by decide), if_neg (by decide)]
    exact ih (i + 1) (now + vmCheckInterval)

/-- Claim C3 witness: after 241 polls (more than 1200 seconds of
simulated wall-clock time) the loop is still running. -/
theorem waitForBigvState_never_times_out_witness :
    waitForBigvStateRun (allAccepted readState) waitForProvisioned 241 0 0 = none :=
  waitForBigvState_never_times_out readState 241 0 0

end Bigv
